import Mathlib

/-!
Verification of the `propagate` crate's core: the propagation-tracing
outcome type.  The definitions below are a shallow embedding of
`src/error.rs` and `src/result.rs`; Rust's in-place mutation is modelled
by explicit state passing, `#[track_caller]` by an explicit
`caller : CodeLocation` argument, the `From` trait by an explicit
conversion function, and panicking by an `Except String` result carrying
the panic message.
-/

namespace Propagate

/-- Embeds `CodeLocation` from `src/error.rs`: a (filename, line number)
pair in the source code. -/
structure CodeLocation where
  file : String
  line : Nat
deriving DecidableEq, Repr

/-- Embeds `CodeLocation::down_by`: the location `lines` lines below `self`. -/
def CodeLocation.down_by (self : CodeLocation) (lines : Nat) : CodeLocation :=
  { file := self.file, line := self.line + lines }

/-- Embeds `CodeLocationStack` from `src/error.rs`: a stack of code
locations, backed by a growable vector (here a list, left = bottom). -/
structure CodeLocationStack where
  locs : List CodeLocation
deriving DecidableEq, Repr

/-- Embeds the `Traced` trait from `src/result.rs`: stack-like types that
can record the location of a propagation site.  `trace(&mut self, location)`
becomes a state-passing function. -/
class Traced (S : Type) where
  trace : S → CodeLocation → S

/-- Embeds `impl Traced for CodeLocationStack`: `trace` pushes the location
onto the end of the vector. -/
instance : Traced CodeLocationStack where
  trace s loc := ⟨s.locs ++ [loc]⟩

/-- Embeds `#[derive(Default)]` on `CodeLocationStack`: the empty vector. -/
instance : Inhabited CodeLocationStack :=
  ⟨⟨[]⟩⟩

/-- Embeds `TracedError<E, S>` from `src/error.rs`: a failure payload
paired with a trace store. -/
structure TracedError (E S : Type) where
  error : E
  stack : S

/-- Embeds `TracedError::new` (`src/error.rs`): a default (empty) stack is
created and the caller's location is traced onto it. -/
def TracedError.new [Inhabited S] [Traced S] (error : E) (caller : CodeLocation) :
    TracedError E S :=
  { error := error, stack := Traced.trace default caller }

/-- Embeds `TracedError::push_caller` (`src/error.rs`): traces the caller's
location onto the existing stack. -/
def TracedError.push_caller [Traced S] (self : TracedError E S) (caller : CodeLocation) :
    TracedError E S :=
  { self with stack := Traced.trace self.stack caller }

/-- Embeds `TracedError::convert_inner` (`src/error.rs`): converts the
wrapped error from `E` to `F` via the `From` conversion `from_fn`, moving
the stack across unchanged. -/
def TracedError.convert_inner (self : TracedError E S) (from_fn : E → F) :
    TracedError F S :=
  { error := from_fn self.error, stack := self.stack }

/-- Embeds `propagate::Result<T, E, S>` from `src/result.rs`: `Ok` holds
the success value, `Err` holds a `TracedError`. -/
inductive Result (T E S : Type) where
  | Ok : T → Result T E S
  | Err : TracedError E S → Result T E S

/-- Embeds `std::ops::ControlFlow`, as produced by `Try::branch`. -/
inductive Flow (B C : Type) where
  | brk : B → Flow B C
  | cont : C → Flow B C

/-- Embeds `<Result as Try>::branch` (`src/result.rs`): `Ok` continues with
the value, `Err` breaks with the residual `Result<Infallible, E, S>`
(`Infallible` is `Empty`). -/
def Result.branch : Result T E S → Flow (Result Empty E S) T
  | .Ok ok => .cont ok
  | .Err err => .brk (.Err err)

/-- Embeds `FromResidual<Result<Infallible, E, S>> for Result<T, F, S>`
(`src/result.rs` lines 254-270): on an `Err` residual, `push_caller` then
`convert_inner`.  The `Ok` case is unreachable. -/
def Result.from_residual [Traced S] (from_fn : E → F) (caller : CodeLocation) :
    Result Empty E S → Result T F S
  | .Ok x => x.elim
  | .Err e => .Err ((e.push_caller caller).convert_inner from_fn)

/-- Embeds `std::result::Result<T, E>`: a plain, trace-less result. -/
inductive StdResult (T E : Type) where
  | Ok : T → StdResult T E
  | Err : E → StdResult T E

/-- Embeds `FromResidual<std::result::Result<Infallible, E>> for Result<T, F, S>`
(`src/result.rs` lines 273-286): on an `Err` residual, a brand-new
`TracedError` is created via `TracedError::new` with the converted payload. -/
def Result.from_residual_std [Traced S] [Inhabited S] (from_fn : E → F)
    (caller : CodeLocation) : StdResult Empty E → Result T F S
  | .Ok x => x.elim
  | .Err e => .Err (TracedError.new (from_fn e) caller)

/-- Embeds `Result::new_err` (`src/result.rs` lines 337-345): constructs an
error result from a raw value, converting it via `E: From<D>` and recording
the construction call site through `TracedError::new`. -/
def Result.new_err [Traced S] [Inhabited S] (from_fn : D → E) (error_value : D)
    (caller : CodeLocation) : Result T E S :=
  .Err (TracedError.new (from_fn error_value) caller)

/-- One application of the `?` operator inside a function returning
`Result B F S`: `branch` the operand, and on a break reconstitute the early
return via `from_residual` at the invocation site `caller`.  `.inl` is the
early-returned result, `.inr` the unwrapped success value. -/
def qmark [Traced S] (from_fn : E → F) (caller : CodeLocation) (r : Result A E S) :
    Sum (Result B F S) A :=
  match r.branch with
  | .brk residual => .inl (Result.from_residual from_fn caller residual)
  | .cont a => .inr a

/-- A chain of nested calls over the default stack: the innermost function
constructs the failure with `Result::new_err` at `origin`; each enclosing
function forwards it with `Ok(inner?)`, invoking the `?` operator at the
corresponding location of `forwards` (innermost forward first). -/
def chain (e : E) (origin : CodeLocation) (forwards : List CodeLocation) :
    Result T E CodeLocationStack :=
  forwards.foldl
    (fun r caller =>
      match qmark id caller r with
      | .inl early => early
      | .inr v => .Ok v)
    (Result.new_err id e origin)

/-- Embeds `unwrap_failed` (`src/result.rs` lines 859-865): the panic
message is the given message, a colon-space separator, and the `Debug`
rendering of the mis-accessed value (passed here already formatted). -/
def unwrap_failed (msg : String) (error : String) : String :=
  msg ++ ": " ++ error

/-- Embeds `Result::unwrap` (`src/result.rs`, default stack): returns the
`Ok` value, or panics via `unwrap_failed` with the `Debug` rendering `fmt`
of the whole `TracedError`.  The panic is modelled as `Except.error`
carrying the panic message. -/
def Result.unwrap (fmt : TracedError E CodeLocationStack → String) :
    Result T E CodeLocationStack → Except String T
  | .Ok t => .ok t
  | .Err e => .error (unwrap_failed "called `Result::unwrap()` on an `Err` value" (fmt e))

/-- Embeds `Result::expect`: like `unwrap` but with a caller-given message. -/
def Result.expect (fmt : TracedError E CodeLocationStack → String) (msg : String) :
    Result T E CodeLocationStack → Except String T
  | .Ok t => .ok t
  | .Err e => .error (unwrap_failed msg (fmt e))

/-- Embeds `Result::unwrap_err`: returns the contained error payload, or
panics via `unwrap_failed` with the `Debug` rendering `fmt` of the `Ok`
value. -/
def Result.unwrap_err (fmt : T → String) :
    Result T E CodeLocationStack → Except String E
  | .Ok t => .error (unwrap_failed "called `Result::unwrap_err()` on an `Ok` value" (fmt t))
  | .Err e => .ok e.error

/-- Embeds `Result::expect_err`: like `unwrap_err` but with a caller-given
message. -/
def Result.expect_err (fmt : T → String) (msg : String) :
    Result T E CodeLocationStack → Except String E
  | .Ok t => .error (unwrap_failed msg (fmt t))
  | .Err e => .ok e.error

/-- Embeds `Result::map_err` (`src/result.rs` lines 604-615): applies `op`
to the error payload, rebuilding the `TracedError` with the same stack; an
`Ok` value is passed through untouched.  No location is recorded. -/
def Result.map_err (op : E → F) : Result T E CodeLocationStack → Result T F CodeLocationStack
  | .Ok t => .Ok t
  | .Err e => .Err { error := op e.error, stack := e.stack }

/-- Embeds `Result::transpose` (`src/result.rs` lines 849-857). -/
def Result.transpose : Result (Option T) E CodeLocationStack → Option (Result T E CodeLocationStack)
  | .Ok (some x) => some (.Ok x)
  | .Ok none => none
  | .Err e => some (.Err e)

/-- The mutating public interface of the default trace store as the code
actually exposes it.  `record` is `Traced::trace`, the only mutating
*method* (`to_strings`, `Display` and `Default` never mutate an existing
store).  But `CodeLocationStack` is declared
`pub struct CodeLocationStack(pub Vec<CodeLocation>)` (`src/error.rs`
line 88): the inner vector is a public field, so any holder of the store
can also mutate it directly; `pop`, `clear` and wholesale reassignment
stand for the vector mutations reachable through that field. -/
inductive PubOp where
  | record : CodeLocation → PubOp
  | pop : PubOp
  | clear : PubOp
  | assign : List CodeLocation → PubOp
deriving DecidableEq

/-- Applies one publicly available mutating operation to a store:
`record` appends via `Traced::trace`; `pop` is `s.0.pop()` (drops the last
element); `clear` is `s.0.clear()`; `assign v` overwrites the public field
with `v`. -/
def PubOp.apply (s : CodeLocationStack) : PubOp → CodeLocationStack
  | .record loc => Traced.trace s loc
  | .pop => ⟨s.locs.dropLast⟩
  | .clear => ⟨[]⟩
  | .assign v => ⟨v⟩

/-- Applies a sequence of publicly available mutating operations, in order. -/
def PubOp.applyAll (s : CodeLocationStack) (ops : List PubOp) : CodeLocationStack :=
  ops.foldl PubOp.apply s

/-- Whether a public operation is the record operation of the `Traced`
capability, as opposed to a direct mutation of the public vector field. -/
def PubOp.isRecord : PubOp → Bool
  | .record _ => true
  | _ => false

end Propagate
namespace Propagate

/-- Unfolding lemma: recording on the default store appends the location at
the end of the vector. -/
theorem trace_locs (s : CodeLocationStack) (loc : CodeLocation) :
    (Traced.trace s loc).locs = s.locs ++ [loc] :=
  rfl

/-- Unfolding lemma: a freshly constructed carrier's stack holds exactly the
construction site. -/
theorem new_stack_locs (e : E) (caller : CodeLocation) :
    (TracedError.new (S := CodeLocationStack) e caller).stack.locs = [caller] :=
  rfl

/-- Folding the propagation step of `chain` over a list of forward sites,
starting from an error carrier, appends the forward sites to its stack in
order and leaves the payload alone. -/
theorem chain_foldl_err (t : TracedError E CodeLocationStack)
    (forwards : List CodeLocation) :
    forwards.foldl
        (fun r caller =>
          match qmark id caller r with
          | .inl early => early
          | .inr v => .Ok v)
        (Result.Err t : Result T E CodeLocationStack) =
      .Err { error := t.error, stack := ⟨t.stack.locs ++ forwards⟩ } := by
  induction forwards generalizing t with
  | nil =>
    obtain ⟨err, locs⟩ := t
    simp [List.foldl]
  | cons c rest ih =>
    rw [List.foldl_cons]
    exact (ih { error := t.error, stack := ⟨t.stack.locs ++ [c]⟩ }).trans (by simp)

/-- Claim C1: propagating an `Err` through the `?` operator (`from_residual`
for a native residual) appends exactly the invocation site at the end of the
carrier's existing trace, preserves all previously recorded entries in their
original order, and converts the payload via the resolved conversion; and a
chain consisting of one origin construction followed by any list of
propagated forwards ends with trace `origin :: forwards`, i.e. exactly
`forwards.length + 1` locations ordered from innermost origin to outermost
forward. -/
theorem from_residual_appends_one_location_and_chain_trace :
    (∀ (T E F : Type) (e : TracedError E CodeLocationStack) (from_fn : E → F)
        (caller : CodeLocation),
      Result.from_residual (T := T) from_fn caller (.Err e) =
        .Err { error := from_fn e.error, stack := ⟨e.stack.locs ++ [caller]⟩ }) ∧
    (∀ (T E : Type) (e : E) (origin : CodeLocation) (forwards : List CodeLocation),
      ∃ t : TracedError E CodeLocationStack,
        chain (T := T) e origin forwards = .Err t ∧
          t.stack.locs = origin :: forwards ∧
          t.stack.locs.length = forwards.length + 1) := by
  constructor
  · intro T E F e from_fn caller
    rfl
  · intro T E e origin forwards
    refine ⟨{ error := e, stack := ⟨origin :: forwards⟩ }, ?_, rfl, by simp⟩
    exact chain_foldl_err (T := T) { error := e, stack := ⟨[origin]⟩ } forwards

/-- Claim C2: coercing a trace-less foreign (`std::result::Result`) failure
through the `?` operator creates a brand-new trace store holding exactly one
location, the current propagation site, with the payload converted. -/
theorem foreign_from_residual_fresh_trace :
    ∀ (T E F : Type) (e : E) (from_fn : E → F) (caller : CodeLocation),
      Result.from_residual_std (T := T) (S := CodeLocationStack) from_fn caller
          (.Err e) =
        .Err { error := from_fn e, stack := ⟨[caller]⟩ } ∧
      ([caller] : List CodeLocation).length = 1 := by
  intro T E F e from_fn caller
  exact ⟨rfl, rfl⟩

/-- Claim C3: converting a carrier's payload type via `convert_inner` moves
the trace store across unchanged, for every store type. -/
theorem convert_inner_preserves_trace :
    ∀ (E F S : Type) (self : TracedError E S) (from_fn : E → F),
      (self.convert_inner from_fn).stack = self.stack := by
  intro E F S self from_fn
  rfl

/-- Claim C4: direct construction via `Result::new_err` produces a failure
whose payload is the given value passed through the resolved conversion and
whose trace is exactly the one-element stack of the construction call site. -/
theorem new_err_records_construction_site :
    ∀ (T D E : Type) (from_fn : D → E) (d : D) (caller : CodeLocation),
      Result.new_err (T := T) (S := CodeLocationStack) from_fn d caller =
        .Err { error := from_fn d, stack := ⟨[caller]⟩ } ∧
      ([caller] : List CodeLocation).length = 1 := by
  intro T D E from_fn d caller
  exact ⟨rfl, rfl⟩

/-- Claim C5 counterexample: the default trace store is not append-only
under the full public interface.  The inner vector is a public field, so
popping it is a publicly available operation: applied to a store holding
the single recorded location `c.rs:10`, one `pop` reduces the length of the
recorded sequence from 1 to 0. -/
theorem code_location_stack_public_shrink_counterexample :
    (PubOp.applyAll ⟨[⟨"c.rs", 10⟩]⟩ [.pop]).locs.length <
      (⟨[⟨"c.rs", 10⟩]⟩ : CodeLocationStack).locs.length := by
  decide

/-- Claim C5 as amended: restricted to the store's exposed methods — the
record operation `Traced::trace`, the only mutating method — no sequence of
operations can reduce the length of the recorded sequence or reorder its
existing entries: the original entries survive unchanged, in order, as a
prefix, and the length never decreases.  The public vector field, however,
additionally exposes removal and reordering mutations (see the
counterexample). -/
theorem code_location_stack_record_append_only :
    ∀ (s : CodeLocationStack) (ops : List PubOp),
      (∀ op ∈ ops, op.isRecord = true) →
      ∃ tail, (PubOp.applyAll s ops).locs = s.locs ++ tail ∧
        s.locs.length ≤ (PubOp.applyAll s ops).locs.length := by
  intro s ops
  induction ops generalizing s with
  | nil =>
    intro _
    exact ⟨[], by simp [PubOp.applyAll], by simp [PubOp.applyAll]⟩
  | cons op rest ih =>
    intro h
    cases op with
    | record loc =>
      have hstep : PubOp.applyAll s (.record loc :: rest) =
          PubOp.applyAll ⟨s.locs ++ [loc]⟩ rest := rfl
      obtain ⟨tail, htail, hlen⟩ :=
        ih ⟨s.locs ++ [loc]⟩ (fun op hop => h op (List.mem_cons_of_mem _ hop))
      refine ⟨[loc] ++ tail, ?_, ?_⟩
      · rw [hstep, htail]
        simp
      · rw [hstep]
        refine le_trans ?_ hlen
        simp
    | pop => exact absurd (h _ (List.mem_cons_self _ _)) (by decide)
    | clear => exact absurd (h _ (List.mem_cons_self _ _)) (by decide)
    | assign v => exact absurd (h _ (List.mem_cons_self _ _)) (by simp [PubOp.isRecord])

/-- Witness for the amended claim C5 at a concrete store and operation
sequence: recording `b.rs:20` on a store holding `c.rs:10` keeps the
original entry as a prefix and does not shrink the store. -/
theorem code_location_stack_record_append_only_witness :
    ∃ tail,
      (PubOp.applyAll ⟨[⟨"c.rs", 10⟩]⟩ [.record ⟨"b.rs", 20⟩]).locs =
          [(⟨"c.rs", 10⟩ : CodeLocation)] ++ tail ∧
        ([(⟨"c.rs", 10⟩ : CodeLocation)]).length ≤
          (PubOp.applyAll ⟨[⟨"c.rs", 10⟩]⟩ [.record ⟨"b.rs", 20⟩]).locs.length :=
  code_location_stack_record_append_only ⟨[⟨"c.rs", 10⟩]⟩ [.record ⟨"b.rs", 20⟩]
    (by decide)

end Propagate
namespace Propagate

/-- Claim C6: the trace store owned by a failure carrier is never empty once
the carrier is observable: `TracedError::new` records one location at
creation, and every subsequent operation — propagation (`push_caller` /
native `from_residual`), payload conversion (`convert_inner`), payload
mapping (`map_err`), and foreign coercion (`from_residual_std`, which
creates afresh) — keeps the trace non-empty. -/
theorem failure_carrier_trace_nonempty :
    (∀ (E : Type) (e : E) (caller : CodeLocation),
      (TracedError.new (S := CodeLocationStack) e caller).stack.locs ≠ []) ∧
    (∀ (E : Type) (t : TracedError E CodeLocationStack) (caller : CodeLocation),
      t.stack.locs ≠ [] → (t.push_caller caller).stack.locs ≠ []) ∧
    (∀ (E F : Type) (t : TracedError E CodeLocationStack) (from_fn : E → F),
      t.stack.locs ≠ [] → (t.convert_inner from_fn).stack.locs ≠ []) ∧
    (∀ (T E F : Type) (op : E → F) (t : TracedError E CodeLocationStack)
        (t2 : TracedError F CodeLocationStack),
      t.stack.locs ≠ [] → Result.map_err (T := T) op (.Err t) = .Err t2 →
        t2.stack.locs ≠ []) ∧
    (∀ (T E F : Type) (from_fn : E → F) (caller : CodeLocation)
        (t : TracedError E CodeLocationStack) (t2 : TracedError F CodeLocationStack),
      Result.from_residual (T := T) from_fn caller (.Err t) = .Err t2 →
        t2.stack.locs ≠ []) ∧
    (∀ (T E F : Type) (from_fn : E → F) (caller : CodeLocation) (e : E)
        (t2 : TracedError F CodeLocationStack),
      Result.from_residual_std (T := T) from_fn caller (.Err e) = .Err t2 →
        t2.stack.locs ≠ []) := by
  refine ⟨?_, ?_, ?_, ?_, ?_, ?_⟩
  · intro E e caller
    rw [new_stack_locs]
    simp
  · intro E t caller h
    show (Traced.trace t.stack caller).locs ≠ []
    rw [trace_locs]
    simp
  · intro E F t from_fn h
    exact h
  · intro T E F op t t2 h heq
    have h2 : Result.map_err (T := T) op (.Err t) =
        .Err { error := op t.error, stack := t.stack } := rfl
    rw [h2] at heq
    injection heq with h3
    rw [← h3]
    exact h
  · intro T E F from_fn caller t t2 heq
    have h2 : Result.from_residual (T := T) from_fn caller (.Err t) =
        .Err { error := from_fn t.error, stack := ⟨t.stack.locs ++ [caller]⟩ } := rfl
    rw [h2] at heq
    injection heq with h3
    rw [← h3]
    simp
  · intro T E F from_fn caller e t2 heq
    have h2 : Result.from_residual_std (T := T) (S := CodeLocationStack) from_fn caller
        (.Err e) = .Err { error := from_fn e, stack := ⟨[caller]⟩ } := rfl
    rw [h2] at heq
    injection heq with h3
    rw [← h3]
    simp

/-- Witness for claim C6 at a concrete carrier: a carrier constructed at
`main.rs:5` and then propagated at `main.rs:9` has a non-empty trace. -/
theorem failure_carrier_trace_nonempty_witness :
    ((TracedError.new (S := CodeLocationStack) "oops" ⟨"main.rs", 5⟩).push_caller
        ⟨"main.rs", 9⟩).stack.locs ≠ [] :=
  failure_carrier_trace_nonempty.2.1 String
    (TracedError.new "oops" ⟨"main.rs", 5⟩) ⟨"main.rs", 9⟩
    (by decide)

/-- Claim C7: each unwrap-style accessor returns the contained value on its
matching variant and, on the wrong variant, is fatal: it produces the panic
outcome carrying a message that ends with the formatted description of the
mis-accessed value (the whole carrier for `unwrap`/`expect`, the success
value for `unwrap_err`/`expect_err`), never a success outcome. -/
theorem wrong_variant_accessor_fatal :
    (∀ (T E : Type) (fmt : TracedError E CodeLocationStack → String) (t : T),
      Result.unwrap (E := E) fmt (.Ok t) = .ok t) ∧
    (∀ (T E : Type) (fmt : TracedError E CodeLocationStack → String)
        (e : TracedError E CodeLocationStack),
      (∃ pre, Result.unwrap (T := T) fmt (.Err e) = .error (pre ++ fmt e)) ∧
        ∀ t, Result.unwrap (T := T) fmt (.Err e) ≠ .ok t) ∧
    (∀ (T E : Type) (fmt : TracedError E CodeLocationStack → String) (msg : String)
        (t : T),
      Result.expect (E := E) fmt msg (.Ok t) = .ok t) ∧
    (∀ (T E : Type) (fmt : TracedError E CodeLocationStack → String) (msg : String)
        (e : TracedError E CodeLocationStack),
      (∃ pre, Result.expect (T := T) fmt msg (.Err e) = .error (pre ++ fmt e)) ∧
        ∀ t, Result.expect (T := T) fmt msg (.Err e) ≠ .ok t) ∧
    (∀ (T E : Type) (fmt : T → String) (e : TracedError E CodeLocationStack),
      Result.unwrap_err fmt (.Err e) = .ok e.error) ∧
    (∀ (T E : Type) (fmt : T → String) (t : T),
      (∃ pre, Result.unwrap_err (E := E) fmt (.Ok t) = .error (pre ++ fmt t)) ∧
        ∀ e2, Result.unwrap_err (E := E) fmt (.Ok t) ≠ .ok e2) ∧
    (∀ (T E : Type) (fmt : T → String) (msg : String)
        (e : TracedError E CodeLocationStack),
      Result.expect_err fmt msg (.Err e) = .ok e.error) ∧
    (∀ (T E : Type) (fmt : T → String) (msg : String) (t : T),
      (∃ pre, Result.expect_err (E := E) fmt msg (.Ok t) = .error (pre ++ fmt t)) ∧
        ∀ e2, Result.expect_err (E := E) fmt msg (.Ok t) ≠ .ok e2) := by
  refine ⟨?_, ?_, ?_, ?_, ?_, ?_, ?_, ?_⟩
  · intro T E fmt t
    rfl
  · intro T E fmt e
    refine ⟨⟨"called `Result::unwrap()` on an `Err` value" ++ ": ", ?_⟩, ?_⟩
    · show Except.error (unwrap_failed "called `Result::unwrap()` on an `Err` value" (fmt e)) = _
      rw [unwrap_failed, String.append_assoc]
    · intro t h
      exact Except.noConfusion h
  · intro T E fmt msg t
    rfl
  · intro T E fmt msg e
    refine ⟨⟨msg ++ ": ", ?_⟩, ?_⟩
    · show Except.error (unwrap_failed msg (fmt e)) = _
      rw [unwrap_failed, String.append_assoc]
    · intro t h
      exact Except.noConfusion h
  · intro T E fmt e
    rfl
  · intro T E fmt t
    refine ⟨⟨"called `Result::unwrap_err()` on an `Ok` value" ++ ": ", ?_⟩, ?_⟩
    · show Except.error (unwrap_failed "called `Result::unwrap_err()` on an `Ok` value" (fmt t)) = _
      rw [unwrap_failed, String.append_assoc]
    · intro e2 h
      exact Except.noConfusion h
  · intro T E fmt msg e
    rfl
  · intro T E fmt msg t
    refine ⟨⟨msg ++ ": ", ?_⟩, ?_⟩
    · show Except.error (unwrap_failed msg (fmt t)) = _
      rw [unwrap_failed, String.append_assoc]
    · intro e2 h
      exact Except.noConfusion h

/-- Claim C8: unwrapping a success outcome built from `v` returns exactly
`v`. -/
theorem unwrap_ok_identity :
    ∀ (T E : Type) (fmt : TracedError E CodeLocationStack → String) (v : T),
      Result.unwrap fmt (.Ok v) = .ok v := by
  intro T E fmt v
  rfl

/-- Claim C9: `map_err` applies the function to the failure payload only and
records no location: the resulting carrier keeps the original trace store
unchanged; a success outcome is returned untouched. -/
theorem map_err_preserves_trace :
    (∀ (T E F : Type) (op : E → F) (t : T),
      Result.map_err op (.Ok t) = (.Ok t : Result T F CodeLocationStack)) ∧
    (∀ (T E F : Type) (op : E → F) (e : TracedError E CodeLocationStack),
      Result.map_err (T := T) op (.Err e) =
        .Err { error := op e.error, stack := e.stack }) := by
  constructor
  · intro T E F op t
    rfl
  · intro T E F op e
    rfl

/-- Claim C10: `transpose` maps `Ok (some x)` to `some (Ok x)`, `Ok none`
to `none`, and a failure to `some` of the very same failure, carrier
(payload and trace) completely unchanged. -/
theorem transpose_moves_carrier_unchanged :
    (∀ (T E : Type) (x : T),
      Result.transpose (.Ok (some x)) = some (.Ok x : Result T E CodeLocationStack)) ∧
    (∀ (T E : Type),
      Result.transpose (T := T) (E := E) (.Ok none) = none) ∧
    (∀ (T E : Type) (e : TracedError E CodeLocationStack),
      Result.transpose (T := T) (.Err e) = some (.Err e)) := by
  refine ⟨?_, ?_, ?_⟩
  · intro T E x
    rfl
  · intro T E
    rfl
  · intro T E e
    rfl

end Propagate
namespace Propagate

/-- Witness for claim C7 at a concrete outcome: unwrapping a failure
constructed at `m.rs:3` does not yield a success value. -/
theorem wrong_variant_accessor_fatal_witness :
    Result.unwrap (fun t => t.error)
        (.Err (TracedError.new "oops" ⟨"m.rs", 3⟩) : Result Unit String CodeLocationStack) ≠
      .ok () :=
  (wrong_variant_accessor_fatal.2.1 Unit String (fun t => t.error)
    (TracedError.new "oops" ⟨"m.rs", 3⟩)).2 ()

-- Scenario A of the spec: C fails at c.rs:10, B forwards at b.rs:20, A
-- forwards at a.rs:30; the final trace is [c.rs:10, b.rs:20, a.rs:30].
example :
    (chain "oops" ⟨"c.rs", 10⟩ [⟨"b.rs", 20⟩, ⟨"a.rs", 30⟩] :
        Result Unit String CodeLocationStack) =
      .Err { error := "oops",
             stack := ⟨[⟨"c.rs", 10⟩, ⟨"b.rs", 20⟩, ⟨"a.rs", 30⟩]⟩ } :=
  rfl

-- Scenario C of the spec: direct construction at self.rs:5 yields the
-- one-element trace [self.rs:5].
example :
    (Result.new_err id "oops" ⟨"self.rs", 5⟩ : Result Unit String CodeLocationStack) =
      .Err { error := "oops", stack := ⟨[⟨"self.rs", 5⟩]⟩ } :=
  rfl

-- Scenario D of the spec: a foreign trace-less failure coerced at self.rs:8
-- yields the fresh one-element trace [self.rs:8].
example :
    (Result.from_residual_std (S := CodeLocationStack) id ⟨"self.rs", 8⟩
        (.Err "io failure") : Result Unit String CodeLocationStack) =
      .Err { error := "io failure", stack := ⟨[⟨"self.rs", 8⟩]⟩ } :=
  rfl

end Propagate
